import Mathlib

/-!
Verification of the HitecDServo register-protocol library against its
natural-language specification.  The definitions below are a shallow
embedding of `HitecDServo.h` / `HitecDServo.cpp` (the serial register
protocol for Hitec D-series servos): machine integers become `Nat`/`Int`
with explicit `% 256` where the C code masks with `& 0xFF`, the bit-banged
hardware interaction is abstracted into an explicit environment (the level
of the shared line at the two `digitalRead` checks, and the `int` results
of the seven `readByte()` calls), and each register operation additionally
produces an observable event trace recording byte transmissions, delays,
and the interrupt-enable (SREG I-bit) manipulation, exactly in the order
the C code performs them.
-/

namespace HitecD

/-! ### Error codes (HitecDServo.h lines 6-11) -/

def HITECD_OK : Int := 1
def HITECD_ERR_NO_SERVO : Int := -1
def HITECD_ERR_NO_RESISTOR : Int := -2
def HITECD_ERR_CORRUPT : Int := -3
def HITECD_ERR_UNSUPPORTED_MODEL : Int := -4
def HITECD_ERR_NOT_ATTACHED : Int := -5

/-! ### Observable events of a register operation

`writeReg` / `readReg` (HitecDServo.cpp lines 93-182) save `SREG`, run
`cli()`, bit-bang bytes, restore `SREG`, and sleep with `delay(..)`.
Each event that happens while timing matters records the interrupt-enable
state at the moment it occurs, so that the scoping of the critical
section is visible in the trace. -/

inductive Event where
  | cliEv : Event
  | sregRestore (v : Bool) : Event
  | txByte (b : Nat) (intEnabled : Bool) : Event
  | rxByte (intEnabled : Bool) : Event
  | delayMs (ms : Nat) (intEnabled : Bool) : Event
  | digitalWriteLow : Event
  | pinModeInputPullup : Event
  | pinModeOutput : Event
deriving DecidableEq, Repr

/-- The bytes transmitted on the wire, in order, by a trace. -/
def txBytesOf (es : List Event) : List Nat :=
  es.filterMap fun e =>
    match e with
    | Event.txByte b _ => some b
    | _ => none

/-- How many byte receptions (`readByte()` calls) a trace contains. -/
def rxCountOf (es : List Event) : Nat :=
  (es.filterMap fun e =>
    match e with
    | Event.rxByte f => some f
    | _ => none).length

/-- Every `delay(..)` in the trace ran with the interrupt-enable bit equal
to `s` (the pre-call SREG I-bit), i.e. outside the suppressed window. -/
def delaysAtSreg (s : Bool) (es : List Event) : Bool :=
  es.all fun e =>
    match e with
    | Event.delayMs _ f => f == s
    | _ => true

/-- Every byte transmission and reception in the trace ran with
interrupts suppressed. -/
def bitsSuppressed (es : List Event) : Bool :=
  es.all fun e =>
    match e with
    | Event.txByte _ f => f == false
    | Event.rxByte f => f == false
    | _ => true

/-! ### writeReg (HitecDServo.cpp lines 93-109) -/

/-- Outcome of `HitecDServo::writeReg` (a `void` function): its event
trace and the final SREG I-bit. -/
structure WriteOutcome where
  events : List Event
  finalSreg : Bool
deriving DecidableEq, Repr

/-- Shallow embedding of `HitecDServo::writeReg(reg, val)` (lines 93-109).
`old_sreg = SREG; cli();` then seven `writeByte` calls:
`0x96, 0x00, reg, 0x02, low = val & 0xFF, high = (val >> 8) & 0xFF,
checksum = (0x00 + reg + 0x02 + low + high) & 0xFF`; then `SREG = old_sreg`.
For `Nat` values, `& 0xFF` is `% 256` and `>> 8` is `/ 256`. -/
def writeRegRun (sreg0 : Bool) (reg val : Nat) : WriteOutcome :=
  let low := val % 256
  let high := (val / 256) % 256
  let checksum := (0x00 + reg + 0x02 + low + high) % 256
  { events :=
      [Event.cliEv,
       Event.txByte 0x96 false, Event.txByte 0x00 false, Event.txByte reg false,
       Event.txByte 0x02 false, Event.txByte low false, Event.txByte high false,
       Event.txByte checksum false,
       Event.sregRestore sreg0],
    finalSreg := sreg0 }

/-! ### readReg (HitecDServo.cpp lines 111-182) -/

/-- The environment a `readReg` call runs in: the level of the line at the
two `digitalRead` checks, and the `int` result of each of the seven
`readByte()` calls.  `readByte` (lines 63-91) returns a byte value 0..255,
or `HITECD_ERR_NO_SERVO` (-1) if the start bit timed out, or
`HITECD_ERR_CORRUPT` (-3) if the stop bit had a framing fault. -/
structure ReadEnv where
  lineLowAfterRelease : Bool
  lineHighAfterResponse : Bool
  bytes : Fin 7 → Int

/-- The codomain of `readByte()`: a byte value, or one of the two
negative error codes it can produce. -/
def ValidByte (b : Int) : Prop := (0 ≤ b ∧ b < 256) ∨ b = -1 ∨ b = -3

instance (b : Int) : Decidable (ValidByte b) := by
  unfold ValidByte; infer_instance

/-- Boolean form of `ValidByte`, for closed counterexample statements. -/
def validByteB (b : Int) : Bool :=
  (decide (0 ≤ b) && decide (b < 256)) || decide (b = -1) || decide (b = -3)

/-- Outcome of `HitecDServo::readReg`: event trace, final SREG I-bit, the
returned `int`, and the value stored through `val_out` on success. -/
structure RegOutcome where
  events : List Event
  finalSreg : Bool
  ret : Int
  valOut : Option Int
deriving DecidableEq, Repr

/-- The request phase of `readReg` (lines 112-129): save SREG, `cli()`,
send `0x96, 0x00, reg, 0x00, checksum = (0x00 + reg + 0x00) & 0xFF`,
drive the pin low, restore SREG, `delay(14)`, release the line to
`INPUT_PULLUP`. -/
def readReqEvents (sreg0 : Bool) (reg : Nat) : List Event :=
  [Event.cliEv,
   Event.txByte 0x96 false, Event.txByte 0x00 false, Event.txByte reg false,
   Event.txByte 0x00 false, Event.txByte ((0x00 + reg + 0x00) % 256) false,
   Event.digitalWriteLow,
   Event.sregRestore sreg0,
   Event.delayMs 14 sreg0,
   Event.pinModeInputPullup]

/-- The response phase of `readReg` (lines 139-152): save SREG, `cli()`,
seven `readByte()` calls, restore SREG, `delay(1)`. -/
def rxPhaseEvents (sreg0 : Bool) : List Event :=
  [Event.cliEv,
   Event.rxByte false, Event.rxByte false, Event.rxByte false,
   Event.rxByte false, Event.rxByte false, Event.rxByte false,
   Event.rxByte false,
   Event.sregRestore sreg0,
   Event.delayMs 1 sreg0]

/-- The full event trace of a `readReg` call that got past the NoServo
check: request phase, response phase, and the final `pinMode(pin,
OUTPUT)` (line 158 or 162). -/
def respEvents (sreg0 : Bool) (reg : Nat) : List Event :=
  readReqEvents sreg0 reg ++ rxPhaseEvents sreg0 ++ [Event.pinModeOutput]

/-- Shallow embedding of `HitecDServo::readReg(reg, val_out)`
(lines 111-182), faithful to the source's control flow:
1. send the request; if the line does not read LOW after release,
   `delay(2)`, re-drive the pin, return `HITECD_ERR_NO_SERVO`;
2. read the seven response bytes `const_0x69, mystery, reg2, const_0x02,
   low, high, checksum2`; if the line does not read HIGH afterwards,
   return `HITECD_ERR_NO_RESISTOR`;
3. validate, in source order: `const_0x69 != 0x69`, `mystery < 0`,
   `reg2 != reg`, `const_0x02 != 0x02`, `low < 0`, `high < 0`,
   `checksum2 != ((mystery + reg2 + const_0x02 + low + high) & 0xFF)`
   each return `HITECD_ERR_CORRUPT`;
4. otherwise `*val_out = low + (high << 8)` and return `HITECD_OK`.
The `& 0xFF` is `% 256` (`Int.emod`, the nonnegative representative, which
agrees with C's two's-complement `& 0xFF` also for negative operands). -/
def readRegRun (sreg0 : Bool) (reg : Nat) (env : ReadEnv) : RegOutcome :=
  if env.lineLowAfterRelease = false then
    { events := readReqEvents sreg0 reg ++
        [Event.delayMs 2 sreg0, Event.pinModeOutput],
      finalSreg := sreg0, ret := HITECD_ERR_NO_SERVO, valOut := none }
  else if env.lineHighAfterResponse = false then
    { events := respEvents sreg0 reg, finalSreg := sreg0,
      ret := HITECD_ERR_NO_RESISTOR, valOut := none }
  else if env.bytes 0 ≠ 0x69 then
    { events := respEvents sreg0 reg, finalSreg := sreg0,
      ret := HITECD_ERR_CORRUPT, valOut := none }
  else if env.bytes 1 < 0 then
    { events := respEvents sreg0 reg, finalSreg := sreg0,
      ret := HITECD_ERR_CORRUPT, valOut := none }
  else if env.bytes 2 ≠ (reg : Int) then
    { events := respEvents sreg0 reg, finalSreg := sreg0,
      ret := HITECD_ERR_CORRUPT, valOut := none }
  else if env.bytes 3 ≠ 0x02 then
    { events := respEvents sreg0 reg, finalSreg := sreg0,
      ret := HITECD_ERR_CORRUPT, valOut := none }
  else if env.bytes 4 < 0 then
    { events := respEvents sreg0 reg, finalSreg := sreg0,
      ret := HITECD_ERR_CORRUPT, valOut := none }
  else if env.bytes 5 < 0 then
    { events := respEvents sreg0 reg, finalSreg := sreg0,
      ret := HITECD_ERR_CORRUPT, valOut := none }
  else if env.bytes 6 ≠ (env.bytes 1 + env.bytes 2 + env.bytes 3 +
      env.bytes 4 + env.bytes 5) % 256 then
    { events := respEvents sreg0 reg, finalSreg := sreg0,
      ret := HITECD_ERR_CORRUPT, valOut := none }
  else
    { events := respEvents sreg0 reg, finalSreg := sreg0,
      ret := HITECD_OK,
      valOut := some (env.bytes 4 + env.bytes 5 * 256) }

/-- `HitecDServo::readModelNumber` (lines 24-29): `readReg(0x00, &m)`;
negative results are propagated, otherwise the read value is returned.
Note the source performs no attachment check before calling `readReg`. -/
def readModelNumberRet (sreg0 : Bool) (env : ReadEnv) : Int :=
  if (readRegRun sreg0 0x00 env).ret < 0 then (readRegRun sreg0 0x00 env).ret
  else (readRegRun sreg0 0x00 env).valOut.getD 0

/-! ### Device state: constructor, attach, attached, detach
(HitecDServo.cpp lines 3-22, header fields lines 182-187)

The C++ object also stores `pinBitMask`, `pinInputRegister` and
`pinOutputRegister`, which `attach` derives from the pin number; they are
hardware plumbing used only inside `writeByte`/`readByte` (whose I/O is
already abstracted into the event traces above) and are not observable
through any public operation, so they are not part of the state here. -/

structure DServoState where
  pin : Int
  modelNumber : Int
  rawAngleFor850 : Int
  rawAngleFor1500 : Int
  rawAngleFor2150 : Int
deriving DecidableEq, Repr

/-- `HitecDServo::HitecDServo()` (line 3): only `pin` is initialized
(to -1); `modelNumber` and the three raw-angle fields stay uninitialized,
which we model by taking their garbage contents as arguments. -/
def mkServo (m r850 r1500 r2150 : Int) : DServoState :=
  { pin := -1, modelNumber := m,
    rawAngleFor850 := r850, rawAngleFor1500 := r1500,
    rawAngleFor2150 := r2150 }

/-- State effect of `HitecDServo::attach(_pin)` (lines 5-14): `pin = _pin`
and nothing else; the rest of the body configures hardware (`pinMode`,
`digitalWrite`) and derives the port plumbing. -/
def attachState (s : DServoState) (p : Int) : DServoState :=
  { s with pin := p }

/-- Hardware calls `attach` makes (lines 7-8): `pinMode(pin, OUTPUT)` then
`digitalWrite(pin, LOW)`, unconditionally, whatever the pin argument. -/
def attachHwCalls (_p : Int) : List Event :=
  [Event.pinModeOutput, Event.digitalWriteLow]

/-- `HitecDServo::attached()` (lines 16-18): `return (pin != -1)`. -/
def attached (s : DServoState) : Bool :=
  s.pin ≠ -1

/-- `HitecDServo::detach()` (lines 20-22): `pin = -1` and nothing else. -/
def detach (s : DServoState) : DServoState :=
  { s with pin := -1 }

/-! ### Config record and writeConfig validation

`HitecDServo::writeConfig` and the config codec are declared in
HitecDServo.h (lines 15-127, 156-170) but their bodies are not in src;
they are modelled from the spec below. -/

/-- The `HitecDServoConfig` record (HitecDServo.h lines 15-127).  The
last field is the source's sensitivity-ratio setting (`int16_t`, legal
range 819..4095), here named `sensitivity`. -/
structure ServoConfig where
  id : Int
  counterclockwise : Bool
  speed : Int
  deadband : Int
  softStart : Int
  rawAngleFor850 : Int
  rawAngleFor1500 : Int
  rawAngleFor2150 : Int
  failSafe : Int
  failSafeLimp : Bool
  overloadProtection : Int
  smartSense : Bool
  sensitivity : Int
deriving DecidableEq, Repr

/-- Modelled from the spec: the body of the config validation is not in
src.  Spec section 4.4 / header comments give the legal sets: id 0-254;
speed one of 10,20,...,100; deadband 1..10; soft-start one of
20,40,60,80,100; the three raw angles either the sentinel -1 or a
RawAngle 0..16383; failsafe pulse 0 (hold position) or a pulse width
850..2150; overload protection one of 100,10,20,30,40,50; sensitivity
ratio 819..4095. -/
def validateConfig (c : ServoConfig) : Bool :=
  decide (0 ≤ c.id ∧ c.id ≤ 254) &&
  (decide (c.speed = 10) || decide (c.speed = 20) || decide (c.speed = 30) ||
   decide (c.speed = 40) || decide (c.speed = 50) || decide (c.speed = 60) ||
   decide (c.speed = 70) || decide (c.speed = 80) || decide (c.speed = 90) ||
   decide (c.speed = 100)) &&
  decide (1 ≤ c.deadband ∧ c.deadband ≤ 10) &&
  (decide (c.softStart = 20) || decide (c.softStart = 40) ||
   decide (c.softStart = 60) || decide (c.softStart = 80) ||
   decide (c.softStart = 100)) &&
  (decide (c.rawAngleFor850 = -1) ||
   decide (0 ≤ c.rawAngleFor850 ∧ c.rawAngleFor850 ≤ 16383)) &&
  (decide (c.rawAngleFor1500 = -1) ||
   decide (0 ≤ c.rawAngleFor1500 ∧ c.rawAngleFor1500 ≤ 16383)) &&
  (decide (c.rawAngleFor2150 = -1) ||
   decide (0 ≤ c.rawAngleFor2150 ∧ c.rawAngleFor2150 ≤ 16383)) &&
  (decide (c.failSafe = 0) || decide (850 ≤ c.failSafe ∧ c.failSafe ≤ 2150)) &&
  (decide (c.overloadProtection = 100) || decide (c.overloadProtection = 10) ||
   decide (c.overloadProtection = 20) || decide (c.overloadProtection = 30) ||
   decide (c.overloadProtection = 40) || decide (c.overloadProtection = 50)) &&
  decide (819 ≤ c.sensitivity ∧ c.sensitivity ≤ 4095)

/-- One register-level action issued by `writeConfig` on the success
path.  The concrete register addresses of the settings are not in src,
so the writes are recorded per field rather than per address. -/
inductive CfgWrite where
  | factoryReset : CfgWrite
  | idW (v : Int) : CfgWrite
  | directionW (v : Bool) : CfgWrite
  | speedW (v : Int) : CfgWrite
  | deadbandW (v : Int) : CfgWrite
  | softStartW (v : Int) : CfgWrite
  | raw850W (v : Int) : CfgWrite
  | raw1500W (v : Int) : CfgWrite
  | raw2150W (v : Int) : CfgWrite
  | failSafeW (pulse : Int) (limp : Bool) : CfgWrite
  | overloadW (v : Int) : CfgWrite
  | smartSenseW (v : Bool) : CfgWrite
  | sensitivityW (v : Int) : CfgWrite
deriving DecidableEq, Repr

/-- Modelled from the spec: the success path of `writeConfig` (body not
in src).  Spec section 4.3: reset the device to factory defaults, then
write every non-sentinel field; sentinel (-1) RawAngle fields are
skipped, leaving the post-reset factory value. -/
def configRegWrites (c : ServoConfig) : List CfgWrite :=
  [CfgWrite.factoryReset,
   CfgWrite.idW c.id,
   CfgWrite.directionW c.counterclockwise,
   CfgWrite.speedW c.speed,
   CfgWrite.deadbandW c.deadband,
   CfgWrite.softStartW c.softStart] ++
  (if c.rawAngleFor850 = -1 then [] else [CfgWrite.raw850W c.rawAngleFor850]) ++
  (if c.rawAngleFor1500 = -1 then [] else [CfgWrite.raw1500W c.rawAngleFor1500]) ++
  (if c.rawAngleFor2150 = -1 then [] else [CfgWrite.raw2150W c.rawAngleFor2150]) ++
  [CfgWrite.failSafeW c.failSafe c.failSafeLimp,
   CfgWrite.overloadW c.overloadProtection,
   CfgWrite.smartSenseW c.smartSense,
   CfgWrite.sensitivityW c.sensitivity]

/-- Modelled from the spec: the spec's `Validation` error kind (section
7).  No numeric code for it appears in src (HitecDServo.h defines codes
-1..-5 for the other kinds), so a fresh code is used here. -/
def HITECD_ERR_VALIDATION : Int := -6

/-- Modelled from the spec: `HitecDServo::writeConfig(config)` (declared
HitecDServo.h lines 156-170, body not in src).  Spec sections 4.3 and 7:
every field is validated against its legal set first; on any violation
the call fails `Validation` and issues zero register writes; otherwise
the factory reset and the per-field writes are issued.  Returns the
result code and the list of register-level writes issued. -/
def writeConfigModel (c : ServoConfig) : Int × List CfgWrite :=
  if validateConfig c = false then (HITECD_ERR_VALIDATION, [])
  else (HITECD_OK, configRegWrites c)

/-! ### Pulse-width and RawAngle conversion -/

/-- Modelled from the spec: the bodies of
`readCurrentMicroseconds/QuarterMicros/RawAngle` are not in src
(HitecDServo.h lines 145-150 declare them).  Spec section 4.3: the
conversion between the position register's RawAngle and the pulse width
uses the three cached calibration points via piecewise-linear
interpolation over the pulse segments [850us,1500us] and
[1500us,2150us], extrapolated with the nearest segment's slope outside
[850us,2150us].  Pulse widths are in the native quarter-microsecond
unit, so the three calibration points (r850, r1500, r2150) map to 3400,
6000 and 8600 quarter-microseconds. -/
def quarterMicrosOfRawAngle (r850 r1500 r2150 raw : ℚ) : ℚ :=
  if raw ≤ r1500 then 3400 + (raw - r850) * 2600 / (r1500 - r850)
  else 6000 + (raw - r1500) * 2600 / (r2150 - r1500)

/-! ### Conditions of claim C1 on the read-response validation -/

/-- The Corrupt condition exactly as claim C1 words it: the echo byte
differs from 0x69, the echoed register differs from the requested
register, the constant byte differs from 0x02, the received checksum
differs from `(mystery + regEcho + 0x02 + valLo + valHi) mod 256`, or
any of the seven response bytes timed out (`readByte`'s timeout result
is `HITECD_ERR_NO_SERVO` = -1). -/
def claimedCorruptCond (reg : Nat) (b : Fin 7 → Int) : Bool :=
  decide (b 0 ≠ 0x69) || decide (b 2 ≠ (reg : Int)) || decide (b 3 ≠ 0x02) ||
  decide (b 6 ≠ (b 1 + b 2 + 0x02 + b 4 + b 5) % 256) ||
  decide (b 0 = -1) || decide (b 1 = -1) || decide (b 2 = -1) ||
  decide (b 3 = -1) || decide (b 4 = -1) || decide (b 5 = -1) ||
  decide (b 6 = -1)

/-- The amended Corrupt condition: as `claimedCorruptCond`, but a byte
read may fail with any negative `readByte` result (start-bit timeout or
stop-bit framing fault), not only a timeout. -/
def amendedCorruptCond (reg : Nat) (b : Fin 7 → Int) : Bool :=
  decide (b 0 ≠ 0x69) || decide (b 2 ≠ (reg : Int)) || decide (b 3 ≠ 0x02) ||
  decide (b 6 ≠ (b 1 + b 2 + 0x02 + b 4 + b 5) % 256) ||
  decide (b 0 < 0) || decide (b 1 < 0) || decide (b 2 < 0) ||
  decide (b 3 < 0) || decide (b 4 < 0) || decide (b 5 < 0) ||
  decide (b 6 < 0)

/-- Response bytes refuting claim C1: the mystery byte's read fails with
a stop-bit framing fault (`readByte` result -3, not a timeout) while the
received checksum happens to equal
`(mystery + regEcho + 0x02 + valLo + valHi) mod 256`
(`(-3 + 0 + 2 + 0 + 0) mod 256 = 255`, matching the low byte the C
expression `& 0xFF` computes on the negative sum). -/
def cexBytes : Fin 7 → Int := ![0x69, -3, 0, 0x02, 0, 0, 255]

/-- The bus environment of the C1 counterexample: both turnaround line
checks pass. -/
def cexEnv : ReadEnv :=
  { lineLowAfterRelease := true, lineHighAfterResponse := true,
    bytes := cexBytes }

/-- A well-formed seven-byte read response for register `reg`: one that
passes every validation check of `readReg`. -/
def WellFormedResp (reg : Nat) (b : Fin 7 → Int) : Prop :=
  b 0 = 0x69 ∧ (0 ≤ b 1 ∧ b 1 < 256) ∧ b 2 = (reg : Int) ∧ b 3 = 0x02 ∧
  (0 ≤ b 4 ∧ b 4 < 256) ∧ (0 ≤ b 5 ∧ b 5 < 256) ∧
  b 6 = (b 1 + b 2 + b 3 + b 4 + b 5) % 256

instance (reg : Nat) (b : Fin 7 → Int) : Decidable (WellFormedResp reg b) := by
  unfold WellFormedResp; infer_instance

/-- The conjunction of the seven validation checks of `readReg`
(HitecDServo.cpp lines 170-178), in source form. -/
def PassAllChecks (reg : Nat) (b : Fin 7 → Int) : Prop :=
  b 0 = 0x69 ∧ 0 ≤ b 1 ∧ b 2 = (reg : Int) ∧ b 3 = 0x02 ∧
  0 ≤ b 4 ∧ 0 ≤ b 5 ∧ b 6 = (b 1 + b 2 + b 3 + b 4 + b 5) % 256

/-- A config record whose speed field holds the illegal value 15 and
whose other fields are factory defaults (HitecDServo.h lines 26-126). -/
def cfgSpeed15 : ServoConfig :=
  { id := 0, counterclockwise := false, speed := 15, deadband := 1,
    softStart := 20, rawAngleFor850 := -1, rawAngleFor1500 := -1,
    rawAngleFor2150 := -1, failSafe := 0, failSafeLimp := false,
    overloadProtection := 100, smartSense := true, sensitivity := 4095 }

/-! ## Theorems -/

/-- On a read whose two turnaround line checks pass, `readReg` either
returns `HITECD_OK` storing `low + (high << 8)`, exactly when all seven
validation checks pass, or returns `HITECD_ERR_CORRUPT` storing
nothing. -/
theorem readReg_validation_split (sreg0 : Bool) (reg : Nat) (env : ReadEnv)
    (h1 : env.lineLowAfterRelease = true)
    (h2 : env.lineHighAfterResponse = true) :
    ((readRegRun sreg0 reg env).ret = HITECD_OK ∧
      (readRegRun sreg0 reg env).valOut =
        some (env.bytes 4 + env.bytes 5 * 256) ∧
      PassAllChecks reg env.bytes) ∨
    ((readRegRun sreg0 reg env).ret = HITECD_ERR_CORRUPT ∧
      (readRegRun sreg0 reg env).valOut = none ∧
      ¬ PassAllChecks reg env.bytes) := by
  unfold readRegRun PassAllChecks
  rw [h1, h2]
  simp only [Bool.true_eq_false, if_false]
  split_ifs with hA hB hC hD hE hF hG
  · right; refine ⟨rfl, rfl, ?_⟩; intro h; exact hA h.1
  · right; refine ⟨rfl, rfl, ?_⟩; intro h; omega
  · right; refine ⟨rfl, rfl, ?_⟩; intro h; exact hC h.2.2.1
  · right; refine ⟨rfl, rfl, ?_⟩; intro h; exact hD h.2.2.2.1
  · right; refine ⟨rfl, rfl, ?_⟩; intro h; omega
  · right; refine ⟨rfl, rfl, ?_⟩; intro h; omega
  · right; refine ⟨rfl, rfl, ?_⟩; intro h; exact hG h.2.2.2.2.2.2
  · left
    refine ⟨rfl, rfl, ?_, ?_, ?_, ?_, ?_, ?_, ?_⟩ <;> omega

/-- The return code of `readReg` is always one of `HITECD_OK`,
`HITECD_ERR_NO_SERVO`, `HITECD_ERR_NO_RESISTOR`, `HITECD_ERR_CORRUPT`. -/
theorem readReg_ret_cases (sreg0 : Bool) (reg : Nat) (env : ReadEnv) :
    (readRegRun sreg0 reg env).ret = HITECD_OK ∨
    (readRegRun sreg0 reg env).ret = HITECD_ERR_NO_SERVO ∨
    (readRegRun sreg0 reg env).ret = HITECD_ERR_NO_RESISTOR ∨
    (readRegRun sreg0 reg env).ret = HITECD_ERR_CORRUPT := by
  unfold readRegRun
  split_ifs <;>
    first
      | exact Or.inl rfl
      | exact Or.inr (Or.inl rfl)
      | exact Or.inr (Or.inr (Or.inl rfl))
      | exact Or.inr (Or.inr (Or.inr rfl))

/-- The value `readReg` stores on success is nonnegative. -/
theorem readReg_valOut_nonneg (sreg0 : Bool) (reg : Nat) (env : ReadEnv) :
    0 ≤ (readRegRun sreg0 reg env).valOut.getD 0 := by
  unfold readRegRun
  split_ifs with hA hB hC hD hE hF hG hH hI
  case _ => exact le_refl 0
  case _ => exact le_refl 0
  case _ => exact le_refl 0
  case _ => exact le_refl 0
  case _ => exact le_refl 0
  case _ => exact le_refl 0
  case _ => exact le_refl 0
  case _ => exact le_refl 0
  case _ => exact le_refl 0
  case _ =>
    show 0 ≤ env.bytes 4 + env.bytes 5 * 256
    omega

/-- Propositional reading of `amendedCorruptCond`. -/
theorem amendedCorruptCond_iff (reg : Nat) (b : Fin 7 → Int) :
    amendedCorruptCond reg b = true ↔
      (b 0 ≠ 0x69 ∨ b 2 ≠ (reg : Int) ∨ b 3 ≠ 0x02 ∨
       b 6 ≠ (b 1 + b 2 + 0x02 + b 4 + b 5) % 256 ∨
       b 0 < 0 ∨ b 1 < 0 ∨ b 2 < 0 ∨ b 3 < 0 ∨ b 4 < 0 ∨ b 5 < 0 ∨
       b 6 < 0) := by
  simp [amendedCorruptCond, or_assoc]

/-- Claim C1, counterexample: a read exchange in which both turnaround
line checks pass, every byte result lies in `readByte`'s codomain, and
none of the claim's Corrupt conditions holds (echo byte is 0x69, echoed
register matches, constant byte is 0x02, the received checksum equals
`(mystery + regEcho + 0x02 + valLo + valHi) mod 256`, and no byte timed
out), yet `readReg` returns `HITECD_ERR_CORRUPT` rather than succeeding:
the mystery byte's read failed with a stop-bit framing fault (-3). -/
theorem c1_counterexample :
    (List.ofFn cexBytes).all validByteB = true ∧
    cexEnv.lineLowAfterRelease = true ∧
    cexEnv.lineHighAfterResponse = true ∧
    claimedCorruptCond 0 cexBytes = false ∧
    (readRegRun true 0 cexEnv).ret = HITECD_ERR_CORRUPT ∧
    HITECD_ERR_CORRUPT ≠ HITECD_OK := by
  decide

/-- Claim C1, amended: for every read exchange in which both turnaround
line checks pass, `readReg` returns Corrupt if and only if the echo byte
differs from 0x69, the echoed register differs from the requested
register, the constant byte differs from 0x02, the received checksum
differs from `(mystery + regEcho + 0x02 + valLo + valHi) mod 256`, or
any of the seven response byte reads failed (a negative `readByte`
result: start-bit timeout or stop-bit framing fault); otherwise it
succeeds and the result value equals `valLo + (valHi << 8)`. -/
theorem c1_read_corrupt_iff (sreg0 : Bool) (reg : Nat) (env : ReadEnv)
    (hv : ∀ i : Fin 7, ValidByte (env.bytes i))
    (h1 : env.lineLowAfterRelease = true)
    (h2 : env.lineHighAfterResponse = true) :
    ((readRegRun sreg0 reg env).ret = HITECD_ERR_CORRUPT ↔
      amendedCorruptCond reg env.bytes = true) ∧
    (amendedCorruptCond reg env.bytes = false →
      (readRegRun sreg0 reg env).ret = HITECD_OK ∧
      (readRegRun sreg0 reg env).valOut =
        some (env.bytes 4 + env.bytes 5 * 256)) := by
  have hb6 := hv 6
  unfold ValidByte at hb6
  rcases readReg_validation_split sreg0 reg env h1 h2 with
    ⟨hret, hval, hpass⟩ | ⟨hret, hval, hfail⟩
  · unfold PassAllChecks at hpass
    have hcond : amendedCorruptCond reg env.bytes = false := by
      rw [← Bool.not_eq_true, amendedCorruptCond_iff]
      push_neg
      refine ⟨hpass.1, hpass.2.2.1, hpass.2.2.2.1, by omega, by omega,
        hpass.2.1, by omega, by omega, hpass.2.2.2.2.1,
        hpass.2.2.2.2.2.1, by omega⟩
    refine ⟨?_, fun _ => ⟨hret, hval⟩⟩
    rw [hret, hcond]
    unfold HITECD_OK HITECD_ERR_CORRUPT
    simp
  · unfold PassAllChecks at hfail
    have hcond : amendedCorruptCond reg env.bytes = true := by
      rw [amendedCorruptCond_iff]
      by_contra hno
      push_neg at hno
      exact hfail ⟨hno.1, by omega, hno.2.1, hno.2.2.1, by omega, by omega,
        by omega⟩
    refine ⟨?_, ?_⟩
    · simp [hret, hcond]
    · intro hfalse
      rw [hcond] at hfalse
      exact absurd hfalse (by simp)

/-- Claim C1, witness for the amended theorem: a fully valid response to
a read of register 5 succeeds with the little-endian value. -/
theorem c1_read_corrupt_iff_witness :
    (∀ i : Fin 7, ValidByte
      ((![0x69, 7, 5, 0x02, 0x34, 0x12, 84] : Fin 7 → Int) i)) ∧
    amendedCorruptCond 5 (![0x69, 7, 5, 0x02, 0x34, 0x12, 84]) = false ∧
    (readRegRun true 5
      { lineLowAfterRelease := true, lineHighAfterResponse := true,
        bytes := ![0x69, 7, 5, 0x02, 0x34, 0x12, 84] }).ret = HITECD_OK ∧
    (readRegRun true 5
      { lineLowAfterRelease := true, lineHighAfterResponse := true,
        bytes := ![0x69, 7, 5, 0x02, 0x34, 0x12, 84] }).valOut =
      some (0x34 + 0x12 * 256) := by
  refine ⟨by decide, by decide, ?_⟩
  have h := (c1_read_corrupt_iff true 5
    { lineLowAfterRelease := true, lineHighAfterResponse := true,
      bytes := ![0x69, 7, 5, 0x02, 0x34, 0x12, 84] }
    (by decide) (by decide) (by decide)).2 (by decide)
  exact ⟨h.1, by rw [h.2]; decide⟩

/-- Claim C2: a register write sends exactly the seven bytes
`0x96, 0x00, reg, 0x02, valLo, valHi, checksum` in that order, with
`valLo = val mod 256`, `valHi = val div 256` and
`checksum = (0x00 + reg + 0x02 + valLo + valHi) mod 256`; in particular
reg=0x00, val=0x0000 gives checksum 0x02, and reg=0x0A, val=0x1234 gives
checksum `(0x0A + 0x02 + 0x34 + 0x12) mod 256`. -/
theorem c2_writeReg_frame (sreg0 : Bool) (reg val : Nat)
    (_hreg : reg < 256) (hval : val < 65536) :
    txBytesOf (writeRegRun sreg0 reg val).events =
      [0x96, 0x00, reg, 0x02, val % 256, val / 256,
       (0x00 + reg + 0x02 + val % 256 + val / 256) % 256] ∧
    txBytesOf (writeRegRun sreg0 0x00 0x0000).events =
      [0x96, 0x00, 0x00, 0x02, 0x00, 0x00, 0x02] ∧
    txBytesOf (writeRegRun sreg0 0x0A 0x1234).events =
      [0x96, 0x00, 0x0A, 0x02, 0x34, 0x12,
       (0x0A + 0x02 + 0x34 + 0x12) % 256] := by
  have hhi : (val / 256) % 256 = val / 256 := Nat.mod_eq_of_lt (by omega)
  refine ⟨?_, by simp [writeRegRun, txBytesOf],
    by simp [writeRegRun, txBytesOf]⟩
  simp [writeRegRun, txBytesOf, hhi]

/-- Claim C2, witness: the frame for reg=0x0A, val=0x1234 evaluated. -/
theorem c2_writeReg_frame_witness :
    (0x0A : Nat) < 256 ∧ (0x1234 : Nat) < 65536 ∧
    txBytesOf (writeRegRun true 0x0A 0x1234).events =
      [0x96, 0x00, 0x0A, 0x02, 0x34, 0x12, 0x52] := by
  refine ⟨by decide, by decide, ?_⟩
  rw [(c2_writeReg_frame true 0x0A 0x1234 (by decide) (by decide)).1]

/-- Claim C3: if the line is not LOW after being released to pulled-up
input, the read fails `HITECD_ERR_NO_SERVO` and no response byte is
read; if the response bytes are received but the line then fails to
float HIGH, the read fails `HITECD_ERR_NO_RESISTOR`; if both line checks
pass but the echo byte differs from 0x69, the read fails
`HITECD_ERR_CORRUPT`; the three codes are pairwise distinct. -/
theorem c3_turnaround_errors (sreg0 : Bool) (reg : Nat) (env : ReadEnv) :
    (env.lineLowAfterRelease = false →
      (readRegRun sreg0 reg env).ret = HITECD_ERR_NO_SERVO ∧
      rxCountOf (readRegRun sreg0 reg env).events = 0) ∧
    (env.lineLowAfterRelease = true → env.lineHighAfterResponse = false →
      (readRegRun sreg0 reg env).ret = HITECD_ERR_NO_RESISTOR ∧
      rxCountOf (readRegRun sreg0 reg env).events = 7) ∧
    (env.lineLowAfterRelease = true → env.lineHighAfterResponse = true →
      env.bytes 0 ≠ 0x69 →
      (readRegRun sreg0 reg env).ret = HITECD_ERR_CORRUPT) ∧
    (HITECD_ERR_NO_SERVO ≠ HITECD_ERR_NO_RESISTOR ∧
     HITECD_ERR_NO_SERVO ≠ HITECD_ERR_CORRUPT ∧
     HITECD_ERR_NO_RESISTOR ≠ HITECD_ERR_CORRUPT) := by
  refine ⟨?_, ?_, ?_, by decide⟩
  · intro h
    unfold readRegRun
    rw [h]
    refine ⟨rfl, ?_⟩
    simp [rxCountOf, readReqEvents]
  · intro h1 h2
    unfold readRegRun
    rw [h1, h2]
    refine ⟨rfl, ?_⟩
    simp [rxCountOf, respEvents, readReqEvents, rxPhaseEvents]
  · intro h1 h2 h0
    unfold readRegRun
    rw [h1, h2]
    simp only [Bool.true_eq_false, if_false]
    rw [if_pos h0]

/-- Claim C3, witness: the three failures at concrete environments. -/
theorem c3_turnaround_errors_witness :
    (readRegRun true 0
      { lineLowAfterRelease := false, lineHighAfterResponse := false,
        bytes := cexBytes }).ret = HITECD_ERR_NO_SERVO ∧
    (readRegRun true 0
      { lineLowAfterRelease := true, lineHighAfterResponse := false,
        bytes := cexBytes }).ret = HITECD_ERR_NO_RESISTOR ∧
    (readRegRun true 0
      { lineLowAfterRelease := true, lineHighAfterResponse := true,
        bytes := ![0x68, 0, 0, 0x02, 0, 0, 2] }).ret =
      HITECD_ERR_CORRUPT := by
  refine ⟨((c3_turnaround_errors true 0 _).1 (by decide)).1,
    ((c3_turnaround_errors true 0 _).2.1 (by decide) (by decide)).1,
    (c3_turnaround_errors true 0 _).2.2.1 (by decide) (by decide)
      (by decide)⟩

/-- Claim C4: changing exactly one byte of a well-formed seven-byte read
response to any different byte value makes `readReg` return
`HITECD_ERR_CORRUPT` rather than succeed. -/
theorem c4_single_byte_corruption (sreg0 : Bool) (reg : Nat)
    (b : Fin 7 → Int) (i : Fin 7) (c : Int)
    (_hreg : reg < 256) (hwf : WellFormedResp reg b)
    (hc0 : 0 ≤ c) (hc1 : c < 256) (hne : c ≠ b i) :
    (readRegRun sreg0 reg
      { lineLowAfterRelease := true, lineHighAfterResponse := true,
        bytes := Function.update b i c }).ret = HITECD_ERR_CORRUPT := by
  rcases readReg_validation_split sreg0 reg
      { lineLowAfterRelease := true, lineHighAfterResponse := true,
        bytes := Function.update b i c } rfl rfl with
    ⟨_, _, hpass⟩ | ⟨hret, _, _⟩
  · exfalso
    unfold PassAllChecks at hpass
    unfold WellFormedResp at hwf
    fin_cases i <;> simp [Function.update_apply] at hpass hne <;> omega
  · exact hret

/-- Claim C4, witness: corrupting the low value byte of a well-formed
response to register 0 is detected. -/
theorem c4_single_byte_corruption_witness :
    WellFormedResp 0 (![0x69, 5, 0, 0x02, 7, 9, 23]) ∧
    (8 : Int) ≠ (![0x69, 5, 0, 0x02, 7, 9, 23] : Fin 7 → Int) 4 ∧
    (readRegRun true 0
      { lineLowAfterRelease := true, lineHighAfterResponse := true,
        bytes :=
          Function.update (![0x69, 5, 0, 0x02, 7, 9, 23]) 4 8 }).ret =
      HITECD_ERR_CORRUPT := by
  refine ⟨by decide, by decide, ?_⟩
  exact c4_single_byte_corruption true 0 _ 4 8 (by decide) (by decide)
    (by decide) (by decide) (by decide)

/-- Claim C5 (code_bug evidence): the register operations in src perform
no attachment check whatsoever: `readReg` can only return `HITECD_OK`,
`HITECD_ERR_NO_SERVO`, `HITECD_ERR_NO_RESISTOR` or `HITECD_ERR_CORRUPT`
— never `HITECD_ERR_NOT_ATTACHED` — and `readModelNumber`, which calls
it without checking `pin`, cannot return `HITECD_ERR_NOT_ATTACHED`
either; both `readReg` and `writeReg` always transmit bytes on the wire
(touch hardware), and `detach` merely sets the pin sentinel without
arming any check that later operations would consult. -/
theorem c5_no_not_attached_check (s : DServoState) (sreg0 : Bool)
    (reg val : Nat) (env : ReadEnv) :
    (readRegRun sreg0 reg env).ret ≠ HITECD_ERR_NOT_ATTACHED ∧
    readModelNumberRet sreg0 env ≠ HITECD_ERR_NOT_ATTACHED ∧
    txBytesOf (readRegRun sreg0 reg env).events ≠ [] ∧
    txBytesOf (writeRegRun sreg0 reg val).events ≠ [] ∧
    detach s = { s with pin := -1 } := by
  have hcases := readReg_ret_cases sreg0 reg env
  refine ⟨?_, ?_, ?_, ?_, rfl⟩
  · unfold HITECD_OK HITECD_ERR_NO_SERVO HITECD_ERR_NO_RESISTOR
      HITECD_ERR_CORRUPT at hcases
    unfold HITECD_ERR_NOT_ATTACHED
    omega
  · have hcases0 := readReg_ret_cases sreg0 0x00 env
    have hnn := readReg_valOut_nonneg sreg0 0x00 env
    unfold readModelNumberRet
    unfold HITECD_OK HITECD_ERR_NO_SERVO HITECD_ERR_NO_RESISTOR
      HITECD_ERR_CORRUPT at hcases0
    unfold HITECD_ERR_NOT_ATTACHED
    split_ifs <;> omega
  · unfold readRegRun
    split_ifs <;>
      simp [txBytesOf, respEvents, readReqEvents, rxPhaseEvents]
  · simp [txBytesOf, writeRegRun]

/-- Claim C6 (spec-modelled): `writeConfig` called with a config whose
speed field is 15 (outside its legal set) fails with the Validation
error and issues zero register writes. -/
theorem c6_writeConfig_validation (c : ServoConfig) (h : c.speed = 15) :
    validateConfig c = false ∧
    (writeConfigModel c).1 = HITECD_ERR_VALIDATION ∧
    (writeConfigModel c).2 = [] := by
  have hv : validateConfig c = false := by
    simp [validateConfig, h]
  exact ⟨hv, by simp [writeConfigModel, hv], by simp [writeConfigModel, hv]⟩

/-- Claim C6, witness: the concrete config with speed 15 is rejected
with zero writes. -/
theorem c6_writeConfig_validation_witness :
    cfgSpeed15.speed = 15 ∧
    validateConfig cfgSpeed15 = false ∧
    (writeConfigModel cfgSpeed15).1 = HITECD_ERR_VALIDATION ∧
    (writeConfigModel cfgSpeed15).2 = [] := by
  refine ⟨rfl, ?_, ?_, ?_⟩
  · exact (c6_writeConfig_validation cfgSpeed15 rfl).1
  · exact (c6_writeConfig_validation cfgSpeed15 rfl).2.1
  · exact (c6_writeConfig_validation cfgSpeed15 rfl).2.2

/-- Claim C7 (spec-modelled): for every calibration triple with
raw850 < raw1500 < raw2150, the pulse-width conversion used by the
readCurrent operations is strictly monotonic, the two linear segments
agree exactly at 1500us (both segment formulas give 6000 quarter-micros
at raw1500), and the conversion is linear on each side of raw1500 (the
region below covering both the [850,1500] segment and the
below-850 extrapolation with that segment's slope, the region above
covering the [1500,2150] segment and the above-2150 extrapolation). -/
theorem c7_conversion_piecewise (r850 r1500 r2150 : ℚ)
    (h1 : r850 < r1500) (h2 : r1500 < r2150) :
    StrictMono (quarterMicrosOfRawAngle r850 r1500 r2150) ∧
    quarterMicrosOfRawAngle r850 r1500 r2150 r1500 = 6000 ∧
    3400 + (r1500 - r850) * 2600 / (r1500 - r850) = 6000 ∧
    6000 + (r1500 - r1500) * 2600 / (r2150 - r1500) = 6000 ∧
    (∀ x, x ≤ r1500 → quarterMicrosOfRawAngle r850 r1500 r2150 x =
      2600 / (r1500 - r850) * x + (3400 - 2600 / (r1500 - r850) * r850)) ∧
    (∀ x, r1500 < x → quarterMicrosOfRawAngle r850 r1500 r2150 x =
      2600 / (r2150 - r1500) * x +
        (6000 - 2600 / (r2150 - r1500) * r1500)) := by
  have hd1 : (0:ℚ) < r1500 - r850 := by linarith
  have hd2 : (0:ℚ) < r2150 - r1500 := by linarith
  have hne1 : r1500 - r850 ≠ 0 := hd1.ne'
  have hne2 : r2150 - r1500 ≠ 0 := hd2.ne'
  have lin1 : ∀ x, x ≤ r1500 → quarterMicrosOfRawAngle r850 r1500 r2150 x =
      2600 / (r1500 - r850) * x + (3400 - 2600 / (r1500 - r850) * r850) := by
    intro x hx
    unfold quarterMicrosOfRawAngle
    rw [if_pos hx]
    field_simp
    ring
  have lin2 : ∀ x, r1500 < x → quarterMicrosOfRawAngle r850 r1500 r2150 x =
      2600 / (r2150 - r1500) * x +
        (6000 - 2600 / (r2150 - r1500) * r1500) := by
    intro x hx
    unfold quarterMicrosOfRawAngle
    rw [if_neg (not_le.mpr hx)]
    field_simp
    ring
  have hmid : quarterMicrosOfRawAngle r850 r1500 r2150 r1500 = 6000 := by
    rw [lin1 r1500 le_rfl]
    field_simp
    ring
  have hk1pos : (0:ℚ) < 2600 / (r1500 - r850) := div_pos (by norm_num) hd1
  have hk2pos : (0:ℚ) < 2600 / (r2150 - r1500) := div_pos (by norm_num) hd2
  have hmono : StrictMono (quarterMicrosOfRawAngle r850 r1500 r2150) := by
    intro x y hxy
    by_cases hx : x ≤ r1500 <;> by_cases hy : y ≤ r1500
    · rw [lin1 x hx, lin1 y hy]
      have := mul_lt_mul_of_pos_left hxy hk1pos
      linarith
    · rw [lin1 x hx, lin2 y (not_le.mp hy)]
      have hx6 : 2600 / (r1500 - r850) * x ≤ 2600 / (r1500 - r850) * r1500 :=
        mul_le_mul_of_nonneg_left hx hk1pos.le
      have h6000 : 2600 / (r1500 - r850) * r1500 +
          (3400 - 2600 / (r1500 - r850) * r850) = 6000 := by
        rw [← lin1 r1500 le_rfl]
        exact hmid
      have hy6 : 2600 / (r2150 - r1500) * r1500 <
          2600 / (r2150 - r1500) * y :=
        mul_lt_mul_of_pos_left (not_le.mp hy) hk2pos
      linarith
    · exact absurd hy (not_le.mpr (lt_trans (not_le.mp hx) hxy))
    · rw [lin2 x (not_le.mp hx), lin2 y (not_le.mp hy)]
      have := mul_lt_mul_of_pos_left hxy hk2pos
      linarith
  refine ⟨hmono, hmid, ?_, ?_, lin1, lin2⟩
  · field_simp
    norm_num
  · rw [sub_self]
    simp

/-- Claim C7, witness: the calibration triple 0 < 100 < 200 satisfies the
hypotheses and its conversion maps raw 100 to 6000 quarter-micros. -/
theorem c7_conversion_witness :
    (0:ℚ) < 100 ∧ (100:ℚ) < 200 ∧
    quarterMicrosOfRawAngle 0 100 200 100 = 6000 := by
  exact ⟨by norm_num, by norm_num,
    (c7_conversion_piecewise 0 100 200 (by norm_num) (by norm_num)).2.1⟩

/-- Claim C8 (code_bug evidence): in src, `attach` binds only the pin
and `detach` only resets it; neither touches the cached `modelNumber` or
the three calibration raw-angle fields, so `detach` does not invalidate
them and `attach` does not establish them (a freshly constructed servo
keeps its uninitialized contents across `attach`). -/
theorem c8_attach_detach_do_not_cache (s : DServoState)
    (p m r850 r1500 r2150 : Int) :
    (attachState s p).modelNumber = s.modelNumber ∧
    (attachState s p).rawAngleFor850 = s.rawAngleFor850 ∧
    (attachState s p).rawAngleFor1500 = s.rawAngleFor1500 ∧
    (attachState s p).rawAngleFor2150 = s.rawAngleFor2150 ∧
    (detach s).modelNumber = s.modelNumber ∧
    (detach s).rawAngleFor850 = s.rawAngleFor850 ∧
    (detach s).rawAngleFor1500 = s.rawAngleFor1500 ∧
    (detach s).rawAngleFor2150 = s.rawAngleFor2150 ∧
    (detach s).pin = -1 ∧
    (attachState (mkServo m r850 r1500 r2150) p).modelNumber = m := by
  exact ⟨rfl, rfl, rfl, rfl, rfl, rfl, rfl, rfl, rfl, rfl⟩

/-- The event trace of `readReg` is one of two shapes: the NoServo early
return's trace, or the full request-plus-response trace shared by all
later exits. -/
theorem readReg_events_cases (sreg0 : Bool) (reg : Nat) (env : ReadEnv) :
    (readRegRun sreg0 reg env).events =
      readReqEvents sreg0 reg ++
        [Event.delayMs 2 sreg0, Event.pinModeOutput] ∨
    (readRegRun sreg0 reg env).events = respEvents sreg0 reg := by
  unfold readRegRun
  split_ifs <;> first | exact Or.inl rfl | exact Or.inr rfl

/-- `readReg` restores the pre-call SREG I-bit on every exit path. -/
theorem readReg_finalSreg (sreg0 : Bool) (reg : Nat) (env : ReadEnv) :
    (readRegRun sreg0 reg env).finalSreg = sreg0 := by
  unfold readRegRun
  split_ifs <;> rfl

/-- In the NoServo trace, all transmitted bits are suppressed. -/
theorem bitsSuppressed_noServoTrace (sreg0 : Bool) (reg : Nat) :
    bitsSuppressed (readReqEvents sreg0 reg ++
      [Event.delayMs 2 sreg0, Event.pinModeOutput]) = true := by
  simp [bitsSuppressed, readReqEvents]

/-- In the full trace, all transmitted and received bits are
suppressed. -/
theorem bitsSuppressed_respTrace (sreg0 : Bool) (reg : Nat) :
    bitsSuppressed (respEvents sreg0 reg) = true := by
  simp [bitsSuppressed, respEvents, readReqEvents, rxPhaseEvents]

/-- In the NoServo trace, the delays run at the pre-call SREG. -/
theorem delaysAtSreg_noServoTrace (sreg0 : Bool) (reg : Nat) :
    delaysAtSreg sreg0 (readReqEvents sreg0 reg ++
      [Event.delayMs 2 sreg0, Event.pinModeOutput]) = true := by
  simp [delaysAtSreg, readReqEvents]

/-- In the full trace, the delays run at the pre-call SREG. -/
theorem delaysAtSreg_respTrace (sreg0 : Bool) (reg : Nat) :
    delaysAtSreg sreg0 (respEvents sreg0 reg) = true := by
  simp [delaysAtSreg, respEvents, readReqEvents, rxPhaseEvents]

/-- Claim C9: both register operations save SREG and run `cli()` before
the first bit and restore SREG on every exit path: for every
environment, the final SREG I-bit equals the pre-call value, every byte
transmitted or received on the wire happens with interrupts suppressed,
and every fixed settle delay (`delay(14)`, `delay(2)`, `delay(1)`) runs
with the interrupt state already restored to the pre-call value, i.e.
outside the suppressed window. -/
theorem c9_sreg_critical_section (sreg0 : Bool) (reg val : Nat)
    (env : ReadEnv) :
    (writeRegRun sreg0 reg val).finalSreg = sreg0 ∧
    bitsSuppressed (writeRegRun sreg0 reg val).events = true ∧
    delaysAtSreg sreg0 (writeRegRun sreg0 reg val).events = true ∧
    (readRegRun sreg0 reg env).finalSreg = sreg0 ∧
    bitsSuppressed (readRegRun sreg0 reg env).events = true ∧
    delaysAtSreg sreg0 (readRegRun sreg0 reg env).events = true := by
  refine ⟨rfl, by simp [writeRegRun, bitsSuppressed],
    by simp [writeRegRun, delaysAtSreg],
    readReg_finalSreg sreg0 reg env, ?_, ?_⟩
  · rcases readReg_events_cases sreg0 reg env with h | h <;>
      rw [h]
    · exact bitsSuppressed_noServoTrace sreg0 reg
    · exact bitsSuppressed_respTrace sreg0 reg
  · rcases readReg_events_cases sreg0 reg env with h | h <;>
      rw [h]
    · exact delaysAtSreg_noServoTrace sreg0 reg
    · exact delaysAtSreg_respTrace sreg0 reg

/-- Claim C10: after `attach(p)`, `attached()` returns true exactly when
p is not -1; `attach(-1)` still performs the pin-configuration hardware
calls, yet leaves `attached()` false, the same observation `detach`
produces, because -1 is the internal not-attached sentinel (the
constructor's initial pin value). -/
theorem c10_attach_sentinel (s : DServoState)
    (p m r850 r1500 r2150 : Int) :
    ((attached (attachState s p) = true) ↔ p ≠ -1) ∧
    attached (attachState s (-1)) = false ∧
    attached (attachState s (-1)) = attached (detach s) ∧
    attachHwCalls (-1) = attachHwCalls p ∧
    attachHwCalls p ≠ [] ∧
    (mkServo m r850 r1500 r2150).pin = -1 ∧
    attached (mkServo m r850 r1500 r2150) = false := by
  refine ⟨?_, ?_, ?_, rfl, by simp [attachHwCalls], rfl, ?_⟩
  · simp [attached, attachState]
  · simp [attached, attachState]
  · simp [attached, attachState, detach]
  · simp [attached, mkServo]

end HitecD
